import Mathlib

/-!
A shallow embedding of the proctored-interview repository: the Express/JWT
authentication routes (`db.js` / `auth.js`, staged as `src/unnamed/part_000`)
and the security state machine of `src/src/components/InterviewDashboard.tsx`,
with theorems checking the natural-language specification against them.
-/

namespace InterviewApp

/-! ## Backend: users table, bcrypt and JWT models -/

/-- Model of a bcrypt hash value. `bcryptjs` is an external library; it is
modelled by its contract: `hash(password, salt)` yields a value that
`compare` accepts exactly for the password that was hashed. -/
structure HashV where
  salt : String
  password : String
deriving DecidableEq

/-- `bcrypt.hash(password, salt)`. -/
def bcryptHash (salt password : String) : HashV := ⟨salt, password⟩

/-- `bcrypt.compare(password, hash)`: true exactly when `password` is the
password the hash was made from. -/
def bcryptCompare (password : String) (h : HashV) : Bool := password == h.password

/-- One row of the `users` table (`db.js`: id SERIAL, username, email UNIQUE,
password_hash, full_name). -/
structure UserRow where
  id : Nat
  username : String
  email : String
  passwordHash : HashV
  fullName : String
deriving DecidableEq

/-- The `users` table: its rows plus the SERIAL id counter. -/
structure Db where
  rows : List UserRow
  nextId : Nat
deriving DecidableEq

/-- The JWT payload the routes sign: `{ id, email }`. -/
structure JwtPayload where
  id : Nat
  email : String
deriving DecidableEq

/-- Model of a signed JWT. `jsonwebtoken.sign` records the payload, the
signing algorithm (the library default HS256, an HMAC), the secret and the
`expiresIn` option. -/
structure Jwt where
  payload : JwtPayload
  alg : String
  signedWith : String
  expiresIn : String
deriving DecidableEq

/-- `auth.js`: `JWT_SECRET = process.env.JWT_SECRET || 'secret'` (the model
takes the default; no theorem depends on the value). -/
def jwtSecret : String := "secret"

/-- `jwt.sign(payload, secret, { expiresIn })` with the library's default
HS256 (HMAC-SHA256) algorithm. -/
def jwtSign (p : JwtPayload) (secret expiresIn : String) : Jwt :=
  ⟨p, "HS256", secret, expiresIn⟩

/-- The user object the routes return (`RETURNING id, username, email,
full_name`; the `/me` SELECT). -/
structure UserView where
  id : Nat
  username : String
  email : String
  fullName : String
deriving DecidableEq

/-- An HTTP response of the auth router: status plus the optional `message`,
`token` and `user` fields of the JSON body. -/
structure ApiResponse where
  status : Nat
  message : Option String
  token : Option Jwt
  user : Option UserView
deriving DecidableEq

/-- JavaScript falsiness of a request body string field: absent (`undefined`)
or the empty string. -/
def falsy : Option String → Bool
  | none => true
  | some s => s == ""

/-- `SELECT * FROM users WHERE email = $1` followed by `rows[0]` (email is
UNIQUE, so the first match is the match). -/
def findByEmail (db : Db) (e : String) : Option UserRow :=
  db.rows.find? (fun u => u.email == e)

/-- Body of a `POST /api/auth/signup` request. -/
structure SignupReq where
  username : Option String
  email : Option String
  password : Option String
  fullName : Option String
deriving DecidableEq

/-- `router.post('/signup')`: reject missing fields (400), reject an already
registered email (400), otherwise hash the password, insert the row and
answer 201 with a signed token. `salt` stands for the random
`bcrypt.genSalt(10)` result. Returns the response and the users table after
the request. -/
def signup (req : SignupReq) (salt : String) (db : Db) : ApiResponse × Db :=
  if falsy req.username || falsy req.email || falsy req.password || falsy req.fullName then
    ({ status := 400, message := some "All fields are required.",
       token := none, user := none }, db)
  else
    let email := req.email.getD ""
    match findByEmail db email with
    | some _ =>
      ({ status := 400, message := some "Email already registered.",
         token := none, user := none }, db)
    | none =>
      let passwordHash := bcryptHash salt (req.password.getD "")
      let newUser : UserRow :=
        { id := db.nextId, username := req.username.getD "", email := email,
          passwordHash := passwordHash, fullName := req.fullName.getD "" }
      let token := jwtSign ⟨newUser.id, newUser.email⟩ jwtSecret "24h"
      ({ status := 201, message := none, token := some token,
         user := some ⟨newUser.id, newUser.username, newUser.email, newUser.fullName⟩ },
       { rows := db.rows ++ [newUser], nextId := db.nextId + 1 })

/-- Body of a `POST /api/auth/login` request. -/
structure LoginReq where
  email : Option String
  password : Option String
deriving DecidableEq

/-- `router.post('/login')`: reject missing fields (400); answer 400
"Invalid email or password." when no user has the email or the bcrypt
comparison fails; otherwise answer 200 with a signed token and the user. -/
def login (req : LoginReq) (db : Db) : ApiResponse :=
  if falsy req.email || falsy req.password then
    { status := 400, message := some "Email and password are required.",
      token := none, user := none }
  else
    match findByEmail db (req.email.getD "") with
    | none =>
      { status := 400, message := some "Invalid email or password.",
        token := none, user := none }
    | some user =>
      if bcryptCompare (req.password.getD "") user.passwordHash then
        { status := 200, message := none,
          token := some (jwtSign ⟨user.id, user.email⟩ jwtSecret "24h"),
          user := some ⟨user.id, user.username, user.email, user.fullName⟩ }
      else
        { status := 400, message := some "Invalid email or password.",
          token := none, user := none }

/-- `authenticateToken`'s token extraction:
`authHeader && authHeader.split(' ')[1]` followed by the `if (!token)`
falsiness check. `none` means the request carries no bearer token. -/
def extractToken : Option String → Option String
  | none => none
  | some h =>
    if h == "" then none
    else
      match (h.splitOn " ")[1]? with
      | none => none
      | some t => if t == "" then none else some t

/-- `GET /api/auth/me` behind `authenticateToken`. `verify` stands for
`jwt.verify(token, JWT_SECRET)` of the external JWT library: `none` is a
verification error, `some payload` a verified payload. The handler fetches
the user row only after verification succeeds. -/
def meHandler (verify : String → Option JwtPayload) (authHeader : Option String)
    (db : Db) : ApiResponse :=
  match extractToken authHeader with
  | none =>
    { status := 401, message := some "Access denied. No token provided.",
      token := none, user := none }
  | some tok =>
    match verify tok with
    | none =>
      { status := 403, message := some "Invalid token.", token := none, user := none }
    | some payload =>
      match db.rows.find? (fun u => u.id == payload.id) with
      | none =>
        { status := 404, message := some "User not found.", token := none, user := none }
      | some u =>
        { status := 200, message := none, token := none,
          user := some ⟨u.id, u.username, u.email, u.fullName⟩ }

/-- A users table reachable through this backend: signup rejects empty
fields, so every stored row has a non-empty email and a hash of a non-empty
password. -/
def WfDb (db : Db) : Prop :=
  ∀ u ∈ db.rows, u.email ≠ "" ∧ u.passwordHash.password ≠ ""

instance (db : Db) : Decidable (WfDb db) := by
  unfold WfDb
  infer_instance

/-! ## Frontend: the InterviewDashboard security state machine

The component's React state, refs and event handlers are embedded as a state
record and pure transition functions. Asynchronous browser responses
(`requestFullscreen`, `getDisplayMedia`, `getUserMedia`, `window.confirm`)
are inputs of the transitions; `setTimeout` continuations are separate
events. `window.location.reload()` is recorded in a `reloaded` flag and
`track.stop()` calls in a `stoppedIds` log. -/

/-- The `kind` of a MediaStreamTrack. -/
inductive TrackKind
  | video
  | audio
deriving DecidableEq

/-- A MediaStreamTrack: its identity, kind and `enabled` flag. -/
structure Track where
  id : Nat
  kind : TrackKind
  enabled : Bool
deriving DecidableEq

/-- The `phase` state: 'loading' | 'live' | 'error'. -/
inductive Phase
  | loading
  | live
  | error
deriving DecidableEq

/-- The component's state: the `useState` values, the `useRef` cells
(`streamRef`, `screenStreamRef`, the sharing/request flags,
`hasRequestedRef`), plus the two effect logs `reloaded` and `stoppedIds`. -/
structure DashState where
  phase : Phase
  isCameraOn : Bool
  isMicOn : Bool
  isScreenSharing : Bool
  isSecured : Bool
  violations : Nat
  showWarning : Bool
  warningMsg : String
  infoMsg : String
  errorHeader : String
  errorMessage : String
  stream : Option (List Track)
  screenStream : Option (List Track)
  isScreenSharingRef : Bool
  isRequestingScreenRef : Bool
  hasRequested : Bool
  reloaded : Bool
  stoppedIds : List Nat
deriving DecidableEq

/-- The ids of the tracks of the local camera/mic stream. -/
def streamIds (s : DashState) : List Nat :=
  (s.stream.getD []).map (fun t => t.id)

/-- The ids of the tracks of the screen-share stream. -/
def screenStreamIds (s : DashState) : List Nat :=
  (s.screenStream.getD []).map (fun t => t.id)

/-- `stopTracks`: stop every track of both streams and clear both refs. -/
def stopTracks (s : DashState) : DashState :=
  { s with
    stream := none
    screenStream := none
    stoppedIds := s.stoppedIds ++ streamIds s ++ screenStreamIds s }

/-- `handleViolation(msg)`: a no-op unless the session is secured; otherwise
increment the counter (`next = v + 1`) — auto-terminating (stopTracks +
reload) when `next >= 3` — and show the warning message. -/
def handleViolation (msg : String) (s : DashState) : DashState :=
  if s.isSecured = false then s
  else if 3 ≤ s.violations + 1 then
    { stopTracks s with
      violations := s.violations + 1
      warningMsg := msg
      showWarning := true
      reloaded := true }
  else
    { s with
      violations := s.violations + 1
      warningMsg := msg
      showWarning := true }

/-- A run of `handleViolation` calls, one per message. -/
def runViolations : List String → DashState → DashState
  | [], s => s
  | m :: ms, s => runViolations ms (handleViolation m s)

/-- `enterFullscreen`: `ok` is whether fullscreen is (or becomes) active,
i.e. `document.fullscreenElement` was already set or `requestFullscreen`
resolved; on failure the catch branch enters the error phase. -/
def enterFullscreen (ok : Bool) (s : DashState) : DashState :=
  if ok then { s with isSecured := true, showWarning := false }
  else
    { s with
      phase := Phase.error
      errorHeader := "Fullscreen Required"
      errorMessage := "Assessments require fullscreen mode for security. Please allow fullscreen and retry." }

/-- `handleScreenShareEnd`: stop and clear the screen stream, clear the
sharing flags, set the info message and re-enter fullscreen. -/
def handleScreenShareEnd (fsOk : Bool) (s : DashState) : DashState :=
  enterFullscreen fsOk
    { s with
      screenStream := none
      stoppedIds := s.stoppedIds ++ screenStreamIds s
      isScreenSharingRef := false
      isScreenSharing := false
      infoMsg := "Screen sharing has ended. You have entered Fullscreen Mode. Please continue your interview." }

/-- `toggleScreenShare`: end sharing when active; otherwise request the
display media (`displayResult` is the `getDisplayMedia` outcome) and on
success store the stream and set the flags. The 500 ms `enterFullscreen`
timeout is a separate event (`Event.screenShareFsTimer`). -/
def toggleScreenShare (displayResult : Option (List Track)) (fsOk : Bool)
    (s : DashState) : DashState :=
  if s.isScreenSharing then handleScreenShareEnd fsOk s
  else
    match displayResult with
    | some scr =>
      { s with
        screenStream := some scr
        isScreenSharingRef := true
        isScreenSharing := true
        infoMsg := ""
        isRequestingScreenRef := false }
    | none => { s with isRequestingScreenRef := false }

/-- `handleEndInterview`: `confirmAnswer` is the `window.confirm` result. -/
def handleEndInterview (confirmAnswer : Bool) (s : DashState) : DashState :=
  if confirmAnswer then { stopTracks s with reloaded := true } else s

/-- Flip the `enabled` flag of the first track of kind `k`
(`getVideoTracks()[0]` / `getAudioTracks()[0]` name the first such track of
the stream, and the mutation is in place). `none` when no track of the kind
exists; otherwise the new track list and the flipped track's new flag. -/
def flipFirst (k : TrackKind) : List Track → Option (List Track × Bool)
  | [] => none
  | t :: ts =>
    if t.kind = k then some ({ t with enabled := !t.enabled } :: ts, !t.enabled)
    else
      match flipFirst k ts with
      | none => none
      | some (ts1, b) => some (t :: ts1, b)

/-- `toggleCamera`: flip the first video track's `enabled` flag of the
existing stream and mirror it into `isCameraOn`; nothing otherwise. -/
def toggleCamera (s : DashState) : DashState :=
  match s.stream with
  | none => s
  | some ts =>
    match flipFirst TrackKind.video ts with
    | none => s
    | some (ts1, b) => { s with stream := some ts1, isCameraOn := b }

/-- `toggleMic`: flip the first audio track's `enabled` flag of the existing
stream and mirror it into `isMicOn`; nothing otherwise. -/
def toggleMic (s : DashState) : DashState :=
  match s.stream with
  | none => s
  | some ts =>
    match flipFirst TrackKind.audio ts with
    | none => s
    | some (ts1, b) => { s with stream := some ts1, isMicOn := b }

/-- A `getUserMedia` failure: the DOMException, identified by its `name`. -/
structure MediaError where
  name : String
deriving DecidableEq

/-- `startInterview`: guarded by `hasRequestedRef`; on success store the
stream and go live, on failure reset the guard and enter the error phase
with a message keyed off the exception name. `result` is the `getUserMedia`
outcome. -/
def startInterview (result : Except MediaError (List Track)) (s : DashState) :
    DashState :=
  if s.hasRequested then s
  else
    let s1 := { s with hasRequested := true, phase := Phase.loading, errorMessage := "" }
    match result with
    | Except.ok m => { s1 with stream := some m, phase := Phase.live }
    | Except.error err =>
      { s1 with
        hasRequested := false
        phase := Phase.error
        errorHeader := "Connection Error"
        errorMessage :=
          if err.name = "NotAllowedError" then
            "Camera or microphone access denied. Please allow permissions in your browser bar."
          else "No media gear detected. Ensure your devices are connected." }

/-- A keyboard event: `key` and the modifier flags. -/
structure KeyEvent where
  key : String
  ctrlKey : Bool
  metaKey : Bool
  altKey : Bool
  shiftKey : Bool
deriving DecidableEq

/-- The browser responses a keydown handler's shortcut actions can need:
the `window.confirm` answer (Escape), the `getDisplayMedia` outcome and the
fullscreen outcome (the `s` shortcut). -/
structure KeydownEnv where
  confirmAnswer : Bool
  displayResult : Option (List Track)
  fsOk : Bool
deriving DecidableEq

/-- `e.key.toLowerCase()`, modelled character-wise (the keys the handler
compares against are ASCII). -/
def strToLower (s : String) : String := ⟨s.data.map Char.toLower⟩

/-- The blocked-hotkey test of `handleKeyDown`: Ctrl/Meta+U, +S, +I, +J,
Ctrl/Meta+Shift+I, +J, +C, or F12. -/
def isBlockedHotkey (e : KeyEvent) : Bool :=
  let k := strToLower e.key
  let isCtrl := e.ctrlKey || e.metaKey
  (isCtrl && (k == "u" || k == "s" || k == "i" || k == "j")) ||
  (isCtrl && e.shiftKey && (k == "i" || k == "j" || k == "c")) ||
  k == "f12"

/-- `handleKeyDown`: nothing unless live; the secured shortcuts (m, c, s,
Escape), then the blocked-hotkey violation. -/
def handleKeyDown (e : KeyEvent) (env : KeydownEnv) (s : DashState) : DashState :=
  if s.phase ≠ Phase.live then s
  else
    let k := strToLower e.key
    let s1 :=
      if k == "m" then (if s.isSecured then toggleMic s else s)
      else if k == "c" then (if s.isSecured then toggleCamera s else s)
      else if k == "s" then
        (if s.isSecured then toggleScreenShare env.displayResult env.fsOk s else s)
      else if k == "escape" then
        (if s.isSecured then handleEndInterview env.confirmAnswer s else s)
      else s
    if isBlockedHotkey e then
      handleViolation "Developer tools and source viewing are disabled." s1
    else s1

/-- `isExempt()`: screen sharing is active or being requested. -/
def isExempt (s : DashState) : Bool :=
  s.isScreenSharingRef || s.isRequestingScreenRef

/-- The events the component handles. DOM events carry the browser state
they read (`document.visibilityState`, `document.fullscreenElement`,
`touches.length`); asynchronous browser responses ride along as oracle
fields; the two `setTimeout` continuations and the screen track's `onended`
callback are events of their own. -/
inductive Event
  | blur
  | visibilitychange (hidden : Bool)
  | contextmenu
  | fullscreenchange (fullscreenElement : Bool)
  | touchstart (touches : Nat)
  | keydown (e : KeyEvent) (env : KeydownEnv)
  | broadcast (data : String)
  | fullscreenRetryTimer (fullscreenElement : Bool) (fsOk : Bool)
  | screenShareFsTimer (fsOk : Bool)
  | clickEnterFullscreen (fsOk : Bool)
  | clickToggleCamera
  | clickToggleMic
  | clickToggleScreenShare (displayResult : Option (List Track)) (fsOk : Bool)
  | clickEndCall (confirmAnswer : Bool)
  | screenTrackEnded (fsOk : Bool)
deriving DecidableEq

/-- One event-handling step of the component. The blur / visibility /
fullscreen / contextmenu / touchstart listeners only exist while
`isSecured` (their effects return early otherwise), hence the guard. -/
def handleEvent : Event → DashState → DashState
  | Event.blur, s =>
    if !s.isSecured then s
    else if isExempt s then s
    else handleViolation "Window focus lost! Please stay on the assessment page." s
  | Event.visibilitychange hidden, s =>
    if !s.isSecured then s
    else if hidden && !isExempt s then
      handleViolation "Tab switch detected! This activity is logged." s
    else s
  | Event.contextmenu, s => s
  | Event.fullscreenchange fsEl, s =>
    if !s.isSecured then s
    else if !fsEl && !isExempt s then
      handleViolation "Fullscreen exited! Assessment must be taken in fullscreen mode." s
    else s
  | Event.touchstart touches, s =>
    if !s.isSecured then s
    else if 1 < touches then
      handleViolation "Multi-touch gestures are restricted during the assessment." s
    else s
  | Event.keydown e env, s => handleKeyDown e env s
  | Event.broadcast data, s =>
    if data == "session_exists" && s.phase == Phase.live then
      { s with
        phase := Phase.error
        errorHeader := "Security Violation"
        errorMessage := "Another session is already active in a different tab/window. Please close all other tabs and retry." }
    else s
  | Event.fullscreenRetryTimer fsEl fsOk, s =>
    if !fsEl && isExempt s then enterFullscreen fsOk s else s
  | Event.screenShareFsTimer fsOk, s => enterFullscreen fsOk s
  | Event.clickEnterFullscreen fsOk, s => enterFullscreen fsOk s
  | Event.clickToggleCamera, s => toggleCamera s
  | Event.clickToggleMic, s => toggleMic s
  | Event.clickToggleScreenShare displayResult fsOk, s =>
    toggleScreenShare displayResult fsOk s
  | Event.clickEndCall confirmAnswer, s => handleEndInterview confirmAnswer s
  | Event.screenTrackEnded fsOk, s => handleScreenShareEnd fsOk s

/-- Which events reach `handleViolation`'s increment (given `isSecured`):
the four advertised sources — blur, visibility change to hidden, fullscreen
exit, multi-touch (each unless screen sharing exempts it) — and the blocked
developer-tools hotkeys while live. -/
def triggersViolation (s : DashState) : Event → Bool
  | Event.blur => !isExempt s
  | Event.visibilitychange hidden => hidden && !isExempt s
  | Event.fullscreenchange fsEl => !fsEl && !isExempt s
  | Event.touchstart touches => decide (1 < touches)
  | Event.keydown e _ => (s.phase == Phase.live) && isBlockedHotkey e
  | _ => false

/-! ## Helper lemmas about the transition functions -/

theorem stopTracks_violations (s : DashState) :
    (stopTracks s).violations = s.violations := rfl

theorem stopTracks_isSecured (s : DashState) :
    (stopTracks s).isSecured = s.isSecured := rfl

theorem stopTracks_showWarning (s : DashState) :
    (stopTracks s).showWarning = s.showWarning := rfl

theorem enterFullscreen_violations (ok : Bool) (s : DashState) :
    (enterFullscreen ok s).violations = s.violations := by
  cases ok <;> rfl

theorem enterFullscreen_isSecured (ok : Bool) (s : DashState) :
    (enterFullscreen ok s).isSecured = (ok || s.isSecured) := by
  cases ok <;> simp [enterFullscreen]

theorem enterFullscreen_showWarning (ok : Bool) (s : DashState) :
    (enterFullscreen ok s).showWarning = (!ok && s.showWarning) := by
  cases ok <;> simp [enterFullscreen]

theorem handleScreenShareEnd_violations (ok : Bool) (s : DashState) :
    (handleScreenShareEnd ok s).violations = s.violations := by
  simp [handleScreenShareEnd, enterFullscreen_violations]

theorem handleScreenShareEnd_isSecured (ok : Bool) (s : DashState) :
    (handleScreenShareEnd ok s).isSecured = (ok || s.isSecured) := by
  simp [handleScreenShareEnd, enterFullscreen_isSecured]

theorem handleScreenShareEnd_showWarning (ok : Bool) (s : DashState) :
    (handleScreenShareEnd ok s).showWarning = (!ok && s.showWarning) := by
  simp [handleScreenShareEnd, enterFullscreen_showWarning]

theorem toggleScreenShare_violations (d : Option (List Track)) (ok : Bool)
    (s : DashState) : (toggleScreenShare d ok s).violations = s.violations := by
  unfold toggleScreenShare
  split
  · exact handleScreenShareEnd_violations ok s
  · cases d <;> rfl

theorem toggleScreenShare_isSecured (d : Option (List Track)) (ok : Bool)
    (s : DashState) :
    (toggleScreenShare d ok s).isSecured = ((s.isScreenSharing && ok) || s.isSecured) := by
  unfold toggleScreenShare
  cases hs : s.isScreenSharing
  · simp only [Bool.false_eq_true, if_false, Bool.false_and, Bool.false_or]
    cases d <;> rfl
  · simp [handleScreenShareEnd_isSecured]

theorem toggleScreenShare_showWarning (d : Option (List Track)) (ok : Bool)
    (s : DashState) :
    (toggleScreenShare d ok s).showWarning
      = (!(s.isScreenSharing && ok) && s.showWarning) := by
  unfold toggleScreenShare
  cases hs : s.isScreenSharing
  · simp only [Bool.false_eq_true, if_false, Bool.false_and, Bool.not_false, Bool.true_and]
    cases d <;> rfl
  · simp [handleScreenShareEnd_showWarning]

theorem handleEndInterview_violations (c : Bool) (s : DashState) :
    (handleEndInterview c s).violations = s.violations := by
  cases c <;> rfl

theorem handleEndInterview_isSecured (c : Bool) (s : DashState) :
    (handleEndInterview c s).isSecured = s.isSecured := by
  cases c <;> rfl

theorem handleEndInterview_showWarning (c : Bool) (s : DashState) :
    (handleEndInterview c s).showWarning = s.showWarning := by
  cases c <;> rfl

theorem toggleCamera_cases (s : DashState) :
    toggleCamera s = s ∨
    ∃ ts ts1 b, s.stream = some ts ∧ flipFirst TrackKind.video ts = some (ts1, b) ∧
      toggleCamera s = { s with stream := some ts1, isCameraOn := b } := by
  cases hs : s.stream with
  | none => exact Or.inl (by simp [toggleCamera, hs])
  | some ts =>
    cases hf : flipFirst TrackKind.video ts with
    | none => exact Or.inl (by simp [toggleCamera, hs, hf])
    | some p =>
      exact Or.inr ⟨ts, p.1, p.2, rfl, by simpa using hf, by simp [toggleCamera, hs, hf]⟩

theorem toggleMic_cases (s : DashState) :
    toggleMic s = s ∨
    ∃ ts ts1 b, s.stream = some ts ∧ flipFirst TrackKind.audio ts = some (ts1, b) ∧
      toggleMic s = { s with stream := some ts1, isMicOn := b } := by
  cases hs : s.stream with
  | none => exact Or.inl (by simp [toggleMic, hs])
  | some ts =>
    cases hf : flipFirst TrackKind.audio ts with
    | none => exact Or.inl (by simp [toggleMic, hs, hf])
    | some p =>
      exact Or.inr ⟨ts, p.1, p.2, rfl, by simpa using hf, by simp [toggleMic, hs, hf]⟩

theorem toggleCamera_violations (s : DashState) :
    (toggleCamera s).violations = s.violations := by
  rcases toggleCamera_cases s with h | ⟨ts, ts1, b, _, _, h⟩ <;> rw [h]

theorem toggleCamera_isSecured (s : DashState) :
    (toggleCamera s).isSecured = s.isSecured := by
  rcases toggleCamera_cases s with h | ⟨ts, ts1, b, _, _, h⟩ <;> rw [h]

theorem toggleCamera_showWarning (s : DashState) :
    (toggleCamera s).showWarning = s.showWarning := by
  rcases toggleCamera_cases s with h | ⟨ts, ts1, b, _, _, h⟩ <;> rw [h]

theorem toggleMic_violations (s : DashState) :
    (toggleMic s).violations = s.violations := by
  rcases toggleMic_cases s with h | ⟨ts, ts1, b, _, _, h⟩ <;> rw [h]

theorem toggleMic_isSecured (s : DashState) :
    (toggleMic s).isSecured = s.isSecured := by
  rcases toggleMic_cases s with h | ⟨ts, ts1, b, _, _, h⟩ <;> rw [h]

theorem toggleMic_showWarning (s : DashState) :
    (toggleMic s).showWarning = s.showWarning := by
  rcases toggleMic_cases s with h | ⟨ts, ts1, b, _, _, h⟩ <;> rw [h]

theorem handleViolation_not_secured (m : String) (s : DashState)
    (h : s.isSecured = false) : handleViolation m s = s := by
  simp [handleViolation, h]

theorem handleViolation_violations (m : String) (s : DashState) :
    (handleViolation m s).violations =
      if s.isSecured then s.violations + 1 else s.violations := by
  cases hsec : s.isSecured
  · simp [handleViolation, hsec]
  · simp only [handleViolation, hsec, Bool.true_eq_false, if_false, if_true]
    split <;> rfl

theorem handleViolation_isSecured (m : String) (s : DashState) :
    (handleViolation m s).isSecured = s.isSecured := by
  cases hsec : s.isSecured
  · simp [handleViolation, hsec]
  · simp only [handleViolation, hsec, Bool.true_eq_false, if_false]
    split <;> simp [stopTracks, hsec]

theorem handleViolation_showWarning (m : String) (s : DashState) :
    (handleViolation m s).showWarning =
      if s.isSecured then true else s.showWarning := by
  cases hsec : s.isSecured
  · simp [handleViolation, hsec]
  · simp only [handleViolation, hsec, Bool.true_eq_false, if_false, if_true]
    split <;> rfl

theorem handleKeyDown_not_secured (e : KeyEvent) (env : KeydownEnv) (s : DashState)
    (h : s.isSecured = false) : handleKeyDown e env s = s := by
  unfold handleKeyDown
  split
  · rfl
  · simp only [h, Bool.false_eq_true, if_false, ite_self]
    split
    · exact handleViolation_not_secured _ _ h
    · rfl

theorem handleKeyDown_violations (e : KeyEvent) (env : KeydownEnv) (s : DashState) :
    (handleKeyDown e env s).violations =
      if (s.phase == Phase.live) && isBlockedHotkey e && s.isSecured then
        s.violations + 1
      else s.violations := by
  unfold handleKeyDown
  by_cases hp : s.phase = Phase.live
  · have hb : (s.phase == Phase.live) = true := by simp [hp]
    simp only [hp, ne_eq, not_true_eq_false, if_false, hb, Bool.true_and]
    have key : ∀ s1 : DashState, s1.violations = s.violations →
        s1.isSecured = s.isSecured →
        (if isBlockedHotkey e then
            handleViolation "Developer tools and source viewing are disabled." s1
          else s1).violations =
          if isBlockedHotkey e && s.isSecured then s.violations + 1
          else s.violations := by
      intro s1 hv hsec
      cases hk : isBlockedHotkey e
      · simpa using hv
      · simp only [if_true, Bool.true_and, handleViolation_violations, hsec, hv]
    apply key <;> split_ifs <;>
      simp [toggleMic_violations, toggleCamera_violations,
        toggleScreenShare_violations, handleEndInterview_violations,
        toggleMic_isSecured, toggleCamera_isSecured, toggleScreenShare_isSecured,
        handleEndInterview_isSecured, *]
  · have hb : (s.phase == Phase.live) = false := by simp [hp]
    simp [hp, hb]

/-! ## Sample states for witnesses and counterexamples -/

/-- A secured live session with a fresh camera/mic stream (video track 1,
audio track 2) and no violations yet. -/
def liveSecured : DashState :=
  { phase := Phase.live
    isCameraOn := true
    isMicOn := true
    isScreenSharing := false
    isSecured := true
    violations := 0
    showWarning := false
    warningMsg := ""
    infoMsg := ""
    errorHeader := ""
    errorMessage := ""
    stream := some [⟨1, TrackKind.video, true⟩, ⟨2, TrackKind.audio, true⟩]
    screenStream := none
    isScreenSharingRef := false
    isRequestingScreenRef := false
    hasRequested := true
    reloaded := false
    stoppedIds := [] }

/-- A live session before fullscreen entry: not yet secured. -/
def unsecuredLive : DashState :=
  { liveSecured with isSecured := false }

/-- A dashboard that has not requested media yet. -/
def freshDash : DashState :=
  { liveSecured with
    phase := Phase.loading
    isSecured := false
    hasRequested := false
    stream := none }

/-! ## C8: getUserMedia failure display -/

/-- C8: every failure of the initial media acquisition puts the dashboard in
the error phase with header "Connection Error", and the message is selected
solely by the exception name: the fixed permission-denied string for
`NotAllowedError`, the fixed generic no-device string otherwise. -/
theorem start_interview_error_display (s : DashState) (err : MediaError)
    (h : s.hasRequested = false) :
    (startInterview (Except.error err) s).phase = Phase.error ∧
    (startInterview (Except.error err) s).errorHeader = "Connection Error" ∧
    (startInterview (Except.error err) s).errorMessage =
      (if err.name = "NotAllowedError" then
        "Camera or microphone access denied. Please allow permissions in your browser bar."
      else "No media gear detected. Ensure your devices are connected.") := by
  refine ⟨?_, ?_, ?_⟩ <;> simp [startInterview, h]

/-- Witness for C8 at a concrete pre-request state and a
`NotAllowedError`. -/
theorem start_interview_error_display_witness :
    (startInterview (Except.error ⟨"NotAllowedError"⟩) freshDash).phase = Phase.error ∧
    (startInterview (Except.error ⟨"NotAllowedError"⟩) freshDash).errorHeader
      = "Connection Error" ∧
    (startInterview (Except.error ⟨"NotAllowedError"⟩) freshDash).errorMessage =
      (if ("NotAllowedError" : String) = "NotAllowedError" then
        "Camera or microphone access denied. Please allow permissions in your browser bar."
      else "No media gear detected. Ensure your devices are connected.") :=
  start_interview_error_display freshDash ⟨"NotAllowedError"⟩ rfl

/-! ## C9: nothing counts before the session is secured -/

/-- C9: while `isSecured` is false (before fullscreen entry succeeds),
`handleViolation` returns the state unchanged, and no handled event
increments the violation counter or turns the warning on. -/
theorem unsecured_no_violation_state (s : DashState) (h : s.isSecured = false) :
    (∀ msg, handleViolation msg s = s) ∧
    ∀ e, (handleEvent e s).violations = s.violations ∧
      ((handleEvent e s).showWarning = true → s.showWarning = true) := by
  refine ⟨fun msg => handleViolation_not_secured msg s h, fun e => ?_⟩
  cases e with
  | blur => simp [handleEvent, h]
  | visibilitychange hidden => simp [handleEvent, h]
  | contextmenu => simp [handleEvent]
  | fullscreenchange fsEl => simp [handleEvent, h]
  | touchstart touches => simp [handleEvent, h]
  | keydown e env => simp [handleEvent, handleKeyDown_not_secured e env s h]
  | broadcast data =>
    simp only [handleEvent]
    split <;> simp
  | fullscreenRetryTimer fsEl fsOk =>
    simp only [handleEvent]
    split
    · refine ⟨enterFullscreen_violations _ _, ?_⟩
      rw [enterFullscreen_showWarning]
      intro hx
      exact ((Bool.and_eq_true _ _).mp hx).2
    · simp
  | screenShareFsTimer fsOk =>
    refine ⟨enterFullscreen_violations _ _, ?_⟩
    rw [show (handleEvent (Event.screenShareFsTimer fsOk) s) = enterFullscreen fsOk s from rfl,
      enterFullscreen_showWarning]
    intro hx
    exact ((Bool.and_eq_true _ _).mp hx).2
  | clickEnterFullscreen fsOk =>
    refine ⟨enterFullscreen_violations _ _, ?_⟩
    rw [show (handleEvent (Event.clickEnterFullscreen fsOk) s) = enterFullscreen fsOk s from rfl,
      enterFullscreen_showWarning]
    intro hx
    exact ((Bool.and_eq_true _ _).mp hx).2
  | clickToggleCamera =>
    refine ⟨toggleCamera_violations s, fun hx => ?_⟩
    rwa [show handleEvent Event.clickToggleCamera s = toggleCamera s from rfl,
      toggleCamera_showWarning] at hx
  | clickToggleMic =>
    refine ⟨toggleMic_violations s, fun hx => ?_⟩
    rwa [show handleEvent Event.clickToggleMic s = toggleMic s from rfl,
      toggleMic_showWarning] at hx
  | clickToggleScreenShare d fsOk =>
    refine ⟨toggleScreenShare_violations _ _ _, ?_⟩
    rw [show (handleEvent (Event.clickToggleScreenShare d fsOk) s)
        = toggleScreenShare d fsOk s from rfl,
      toggleScreenShare_showWarning]
    intro hx
    exact ((Bool.and_eq_true _ _).mp hx).2
  | clickEndCall c =>
    refine ⟨handleEndInterview_violations c s, fun hx => ?_⟩
    rwa [show handleEvent (Event.clickEndCall c) s = handleEndInterview c s from rfl,
      handleEndInterview_showWarning] at hx
  | screenTrackEnded fsOk =>
    refine ⟨handleScreenShareEnd_violations _ _, ?_⟩
    rw [show (handleEvent (Event.screenTrackEnded fsOk) s)
        = handleScreenShareEnd fsOk s from rfl,
      handleScreenShareEnd_showWarning]
    intro hx
    exact ((Bool.and_eq_true _ _).mp hx).2

/-- Witness for C9 at a concrete unsecured live state. -/
theorem unsecured_no_violation_state_witness :
    handleViolation "Window focus lost! Please stay on the assessment page." unsecuredLive
      = unsecuredLive ∧
    (handleEvent Event.blur unsecuredLive).violations = unsecuredLive.violations :=
  ⟨(unsecured_no_violation_state unsecuredLive rfl).1 _,
    ((unsecured_no_violation_state unsecuredLive rfl).2 Event.blur).1⟩

/-! ## C2: which event sources increment the violation counter -/

/-- C2 counterexample: a keydown of a blocked hotkey (Ctrl+U) — not one of
the four listed DOM sources (blur, visibility change, fullscreen exit,
multi-touch) — also increments the in-memory violation counter. -/
theorem violation_counter_sources_cex :
    (handleEvent
        (Event.keydown ⟨"u", true, false, false, false⟩ ⟨false, none, false⟩)
        liveSecured).violations
      = liveSecured.violations + 1 := by decide

/-- C2 (amended): the violation counter is incremented exactly by the four
advertised DOM callbacks — blur, visibility change to hidden, fullscreen
exit, multi-touch (each unless screen sharing exempts it) — and additionally
by the blocked developer-tools hotkeys of `handleKeyDown` while live; every
other event leaves it unchanged, and nothing counts while unsecured. -/
theorem violation_counter_sources (s : DashState) (e : Event) :
    (handleEvent e s).violations =
      if s.isSecured && triggersViolation s e then s.violations + 1
      else s.violations := by
  cases e with
  | blur =>
    cases hsec : s.isSecured
    · simp [handleEvent, hsec, triggersViolation]
    · cases hex : isExempt s <;>
        simp [handleEvent, hsec, hex, triggersViolation, handleViolation_violations]
  | visibilitychange hidden =>
    cases hsec : s.isSecured
    · simp [handleEvent, hsec, triggersViolation]
    · cases hidden <;> cases hex : isExempt s <;>
        simp [handleEvent, hsec, hex, triggersViolation, handleViolation_violations]
  | contextmenu => simp [handleEvent, triggersViolation]
  | fullscreenchange fsEl =>
    cases hsec : s.isSecured
    · simp [handleEvent, hsec, triggersViolation]
    · cases fsEl <;> cases hex : isExempt s <;>
        simp [handleEvent, hsec, hex, triggersViolation, handleViolation_violations]
  | touchstart touches =>
    cases hsec : s.isSecured
    · simp [handleEvent, hsec, triggersViolation]
    · by_cases ht : 1 < touches <;>
        simp [handleEvent, hsec, ht, triggersViolation, handleViolation_violations]
  | keydown e env =>
    rw [show handleEvent (Event.keydown e env) s = handleKeyDown e env s from rfl,
      handleKeyDown_violations]
    cases h1 : s.phase == Phase.live <;> cases h2 : isBlockedHotkey e <;>
      cases hsec : s.isSecured <;> simp [triggersViolation, h1, h2, hsec]
  | broadcast data =>
    simp only [handleEvent]
    split <;> simp [triggersViolation]
  | fullscreenRetryTimer fsEl fsOk =>
    simp only [handleEvent]
    split <;> simp [triggersViolation, enterFullscreen_violations]
  | screenShareFsTimer fsOk =>
    simp [handleEvent, triggersViolation, enterFullscreen_violations]
  | clickEnterFullscreen fsOk =>
    simp [handleEvent, triggersViolation, enterFullscreen_violations]
  | clickToggleCamera =>
    simp [handleEvent, triggersViolation, toggleCamera_violations]
  | clickToggleMic =>
    simp [handleEvent, triggersViolation, toggleMic_violations]
  | clickToggleScreenShare d fsOk =>
    simp [handleEvent, triggersViolation, toggleScreenShare_violations]
  | clickEndCall c =>
    simp [handleEvent, triggersViolation, handleEndInterview_violations]
  | screenTrackEnded fsOk =>
    simp [handleEvent, triggersViolation, handleScreenShareEnd_violations]

/-! ## C1: the violation threshold -/

theorem handleViolation_secured_low (m : String) (s : DashState)
    (hs : s.isSecured = true) (hv : s.violations + 1 < 3) :
    handleViolation m s =
      { s with violations := s.violations + 1, warningMsg := m, showWarning := true } := by
  simp [handleViolation, hs, Nat.not_le.mpr hv]

theorem handleViolation_secured_high (m : String) (s : DashState)
    (hs : s.isSecured = true) (hv : 3 ≤ s.violations + 1) :
    handleViolation m s =
      { stopTracks s with
        violations := s.violations + 1
        warningMsg := m
        showWarning := true
        reloaded := true } := by
  simp [handleViolation, hs, hv]

theorem runViolations_spec (msgs : List String) (s : DashState)
    (hs : s.isSecured = true) :
    (runViolations msgs s).isSecured = true ∧
    (runViolations msgs s).violations = s.violations + msgs.length ∧
    s.stoppedIds ⊆ (runViolations msgs s).stoppedIds ∧
    (s.violations + msgs.length < 3 →
      (runViolations msgs s).stream = s.stream ∧
      (runViolations msgs s).screenStream = s.screenStream ∧
      (runViolations msgs s).reloaded = s.reloaded ∧
      (runViolations msgs s).stoppedIds = s.stoppedIds) ∧
    (msgs ≠ [] → 3 ≤ s.violations + msgs.length →
      (runViolations msgs s).stream = none ∧
      (runViolations msgs s).screenStream = none ∧
      (runViolations msgs s).reloaded = true ∧
      streamIds s ⊆ (runViolations msgs s).stoppedIds) := by
  induction msgs generalizing s with
  | nil =>
    refine ⟨hs, by simp [runViolations], ?_, fun _ => ⟨rfl, rfl, rfl, rfl⟩,
      fun hne _ => absurd rfl hne⟩
    simp [runViolations]
  | cons m ms ih =>
    have hrun : runViolations (m :: ms) s = runViolations ms (handleViolation m s) := rfl
    by_cases hv1 : 3 ≤ s.violations + 1
    · rw [hrun, handleViolation_secured_high m s hs hv1]
      obtain ⟨h1, h2, h3, h4, h5⟩ :=
        ih { stopTracks s with
              violations := s.violations + 1
              warningMsg := m
              showWarning := true
              reloaded := true } hs
      have h2x : (runViolations ms
          { stopTracks s with
            violations := s.violations + 1
            warningMsg := m
            showWarning := true
            reloaded := true }).violations = s.violations + 1 + ms.length := h2
      have h3x : s.stoppedIds ++ streamIds s ++ screenStreamIds s ⊆
          (runViolations ms
            { stopTracks s with
              violations := s.violations + 1
              warningMsg := m
              showWarning := true
              reloaded := true }).stoppedIds := h3
      have hsub : s.stoppedIds ⊆ s.stoppedIds ++ streamIds s ++ screenStreamIds s :=
        List.Subset.trans (List.subset_append_left _ _) (List.subset_append_left _ _)
      have hmid : streamIds s ⊆ s.stoppedIds ++ streamIds s ++ screenStreamIds s :=
        List.Subset.trans (List.subset_append_right _ _) (List.subset_append_left _ _)
      refine ⟨h1, by rw [h2x]; simp only [List.length_cons]; omega,
        List.Subset.trans hsub h3x, ?_, ?_⟩
      · intro hlow
        simp only [List.length_cons] at hlow
        omega
      · intro _ _
        cases ms with
        | nil =>
          refine ⟨?_, ?_, ?_, ?_⟩ <;> simp [runViolations, stopTracks]
        | cons m2 ms2 =>
          obtain ⟨a, b, c, _⟩ := h5 (by simp)
            (by show 3 ≤ s.violations + 1 + (m2 :: ms2).length; omega)
          exact ⟨a, b, c, List.Subset.trans hmid h3x⟩
    · rw [hrun, handleViolation_secured_low m s hs (by omega)]
      obtain ⟨h1, h2, h3, h4, h5⟩ :=
        ih { s with violations := s.violations + 1, warningMsg := m, showWarning := true }
          hs
      have h2x : (runViolations ms
          { s with
            violations := s.violations + 1
            warningMsg := m
            showWarning := true }).violations = s.violations + 1 + ms.length := h2
      have h3x : s.stoppedIds ⊆
          (runViolations ms
            { s with
              violations := s.violations + 1
              warningMsg := m
              showWarning := true }).stoppedIds := h3
      refine ⟨h1, by rw [h2x]; simp only [List.length_cons]; omega, h3x, ?_, ?_⟩
      · intro hlow
        simp only [List.length_cons] at hlow
        have h4x := h4 (by show s.violations + 1 + ms.length < 3; omega)
        exact h4x
      · intro _ htr
        simp only [List.length_cons] at htr
        cases ms with
        | nil =>
          simp only [List.length_nil] at htr
          omega
        | cons m2 ms2 =>
          obtain ⟨a, b, c, d⟩ := h5 (by simp)
            (by show 3 ≤ s.violations + 1 + (m2 :: ms2).length; omega)
          exact ⟨a, b, c, d⟩

/-- C1: with the session secured and the counter at 0 (and no reload
recorded yet), a run of violation events increments the counter by one per
event, and termination — `stopTracks` on the local media and the forced
reload — happens exactly when the counter reaches 3, never at any lower
count. -/
theorem violation_threshold_termination (s : DashState) (msgs : List String)
    (hs : s.isSecured = true) (hv : s.violations = 0) (hr : s.reloaded = false) :
    (runViolations msgs s).violations = msgs.length ∧
    ((runViolations msgs s).reloaded = true ↔ 3 ≤ msgs.length) ∧
    (msgs.length < 3 →
      (runViolations msgs s).stream = s.stream ∧
      (runViolations msgs s).stoppedIds = s.stoppedIds) ∧
    (3 ≤ msgs.length →
      (runViolations msgs s).stream = none ∧
      (runViolations msgs s).screenStream = none ∧
      streamIds s ⊆ (runViolations msgs s).stoppedIds) := by
  obtain ⟨h1, h2, h3, h4, h5⟩ := runViolations_spec msgs s hs
  have hlen : ∀ hge : 3 ≤ msgs.length, msgs ≠ [] := by
    intro hge he
    rw [he] at hge
    simp at hge
  refine ⟨by omega, ⟨?_, ?_⟩, ?_, ?_⟩
  · intro hrel
    by_contra hlt
    push_neg at hlt
    have := (h4 (by omega)).2.2.1
    rw [this, hr] at hrel
    cases hrel
  · intro hge
    exact (h5 (hlen hge) (by omega)).2.2.1
  · intro hlt
    have h := h4 (by omega)
    exact ⟨h.1, h.2.2.2⟩
  · intro hge
    obtain ⟨a, b, _, d⟩ := h5 (hlen hge) (by omega)
    exact ⟨a, b, d⟩

/-- Witness for C1: three violations on a fresh secured session terminate
it. -/
theorem violation_threshold_termination_witness :
    (runViolations ["a", "b", "c"] liveSecured).reloaded = true ∧
    (runViolations ["a", "b", "c"] liveSecured).stream = none :=
  have h := violation_threshold_termination liveSecured ["a", "b", "c"] rfl rfl rfl
  ⟨h.2.1.mpr (by decide), (h.2.2.2 (by decide)).1⟩

/-! ## C7: toggleCamera / toggleMic flip one enabled flag -/

theorem flipFirst_eq_none (k : TrackKind) (ts : List Track) :
    flipFirst k ts = none ↔ ∀ t ∈ ts, t.kind ≠ k := by
  induction ts with
  | nil => simp [flipFirst]
  | cons t ts ih =>
    by_cases ht : t.kind = k
    · simp [flipFirst, ht]
    · simp only [flipFirst, ht, if_false]
      cases hf : flipFirst k ts with
      | none =>
        simp only [List.mem_cons, true_iff]
        rintro u (rfl | hu)
        · exact ht
        · exact (ih.mp hf) u hu
      | some p =>
        simp only [List.mem_cons]
        constructor
        · intro hx
          cases hx
        · intro hall
          have : flipFirst k ts = none :=
            ih.mpr (fun u hu => hall u (Or.inr hu))
          rw [this] at hf
          cases hf

theorem flipFirst_append (k : TrackKind) (pre : List Track) (t : Track)
    (post : List Track) (hpre : ∀ u ∈ pre, u.kind ≠ k) (ht : t.kind = k) :
    flipFirst k (pre ++ t :: post) =
      some (pre ++ { t with enabled := !t.enabled } :: post, !t.enabled) := by
  induction pre with
  | nil => simp [flipFirst, ht]
  | cons u pre ih =>
    have hu : u.kind ≠ k := hpre u (List.mem_cons_self u pre)
    have hrest : ∀ v ∈ pre, v.kind ≠ k := fun v hv => hpre v (List.mem_cons_of_mem u hv)
    simp [flipFirst, hu, ih hrest]

theorem flipFirst_shape (k : TrackKind) (ts : List Track) :
    ∀ (ts1 : List Track) (b : Bool), flipFirst k ts = some (ts1, b) →
      ts1.map (fun t => (t.id, t.kind)) = ts.map (fun t => (t.id, t.kind)) := by
  induction ts with
  | nil => intro ts1 b h; cases h
  | cons t ts ih =>
    intro ts1 b h
    by_cases ht : t.kind = k
    · simp only [flipFirst, ht, if_true] at h
      cases h
      simp [ht]
    · simp only [flipFirst, ht, if_false] at h
      cases hf : flipFirst k ts with
      | none => rw [hf] at h; cases h
      | some p =>
        rw [hf] at h
        cases h
        simp [ih p.1 p.2 (by rw [hf])]

/-- The identity-relevant shape of an optional stream: each track's id and
kind, in order. -/
def trackShape (o : Option (List Track)) : Option (List (Nat × TrackKind)) :=
  o.map (fun l => l.map (fun t => (t.id, t.kind)))

/-- C7: `toggleCamera` inverts only the `enabled` flag of the first video
track of the existing stream (mirrored into `isCameraOn`), `toggleMic` only
that of the first audio track (mirrored into `isMicOn`); neither requests
media, every other state field and every other track is unchanged, the
stream keeps exactly the same tracks (ids and kinds), and with no stream or
no such track the call changes nothing. -/
theorem toggles_flip_first_track_only (s : DashState) :
    ((toggleCamera s).phase = s.phase ∧ (toggleCamera s).isMicOn = s.isMicOn ∧
      (toggleCamera s).isScreenSharing = s.isScreenSharing ∧
      (toggleCamera s).isSecured = s.isSecured ∧
      (toggleCamera s).violations = s.violations ∧
      (toggleCamera s).showWarning = s.showWarning ∧
      (toggleCamera s).screenStream = s.screenStream ∧
      (toggleCamera s).reloaded = s.reloaded ∧
      (toggleCamera s).stoppedIds = s.stoppedIds) ∧
    ((toggleMic s).phase = s.phase ∧ (toggleMic s).isCameraOn = s.isCameraOn ∧
      (toggleMic s).isScreenSharing = s.isScreenSharing ∧
      (toggleMic s).isSecured = s.isSecured ∧
      (toggleMic s).violations = s.violations ∧
      (toggleMic s).showWarning = s.showWarning ∧
      (toggleMic s).screenStream = s.screenStream ∧
      (toggleMic s).reloaded = s.reloaded ∧
      (toggleMic s).stoppedIds = s.stoppedIds) ∧
    trackShape (toggleCamera s).stream = trackShape s.stream ∧
    trackShape (toggleMic s).stream = trackShape s.stream ∧
    (s.stream = none → toggleCamera s = s ∧ toggleMic s = s) ∧
    (∀ ts, s.stream = some ts → (∀ t ∈ ts, t.kind ≠ TrackKind.video) →
      toggleCamera s = s) ∧
    (∀ ts, s.stream = some ts → (∀ t ∈ ts, t.kind ≠ TrackKind.audio) →
      toggleMic s = s) ∧
    (∀ pre t post, s.stream = some (pre ++ t :: post) →
      (∀ u ∈ pre, u.kind ≠ TrackKind.video) → t.kind = TrackKind.video →
      (toggleCamera s).stream = some (pre ++ { t with enabled := !t.enabled } :: post) ∧
      (toggleCamera s).isCameraOn = !t.enabled) ∧
    (∀ pre t post, s.stream = some (pre ++ t :: post) →
      (∀ u ∈ pre, u.kind ≠ TrackKind.audio) → t.kind = TrackKind.audio →
      (toggleMic s).stream = some (pre ++ { t with enabled := !t.enabled } :: post) ∧
      (toggleMic s).isMicOn = !t.enabled) := by
  refine ⟨?_, ?_, ?_, ?_, ?_, ?_, ?_, ?_, ?_⟩
  · rcases toggleCamera_cases s with h | ⟨ts, ts1, b, hs, hf, h⟩ <;> rw [h] <;>
      exact ⟨rfl, rfl, rfl, rfl, rfl, rfl, rfl, rfl, rfl⟩
  · rcases toggleMic_cases s with h | ⟨ts, ts1, b, hs, hf, h⟩ <;> rw [h] <;>
      exact ⟨rfl, rfl, rfl, rfl, rfl, rfl, rfl, rfl, rfl⟩
  · rcases toggleCamera_cases s with h | ⟨ts, ts1, b, hs, hf, h⟩
    · rw [h]
    · rw [h, hs]
      simp [trackShape, flipFirst_shape TrackKind.video ts ts1 b hf]
  · rcases toggleMic_cases s with h | ⟨ts, ts1, b, hs, hf, h⟩
    · rw [h]
    · rw [h, hs]
      simp [trackShape, flipFirst_shape TrackKind.audio ts ts1 b hf]
  · intro h0
    constructor <;> simp [toggleCamera, toggleMic, h0]
  · intro ts hs hall
    have hn : flipFirst TrackKind.video ts = none := (flipFirst_eq_none _ _).mpr hall
    simp [toggleCamera, hs, hn]
  · intro ts hs hall
    have hn : flipFirst TrackKind.audio ts = none := (flipFirst_eq_none _ _).mpr hall
    simp [toggleMic, hs, hn]
  · intro pre t post hs hpre ht
    have hf := flipFirst_append TrackKind.video pre t post hpre ht
    constructor <;> simp [toggleCamera, hs, hf]
  · intro pre t post hs hpre ht
    have hf := flipFirst_append TrackKind.audio pre t post hpre ht
    constructor <;> simp [toggleMic, hs, hf]

/-! ## Backend lemmas and sample data -/

theorem findByEmail_some (db : Db) (e : String) (u : UserRow)
    (h : findByEmail db e = some u) : u ∈ db.rows ∧ u.email = e := by
  unfold findByEmail at h
  exact ⟨List.mem_of_find?_eq_some h, by simpa using List.find?_some h⟩

theorem findByEmail_empty (db : Db) (hdb : WfDb db) : findByEmail db "" = none := by
  cases hf : findByEmail db "" with
  | none => rfl
  | some u =>
    obtain ⟨hm, he⟩ := findByEmail_some db "" u hf
    exact absurd he (hdb u hm).1

/-- A registered user: bob@x with password pw1. -/
def sampleRow : UserRow := ⟨1, "bob", "bob@x", bcryptHash "salt1" "pw1", "Bob B"⟩

/-- A one-user users table. -/
def sampleDb : Db := ⟨[sampleRow], 2⟩

/-! ## C3: duplicate-email signup -/

/-- C3 counterexample: a signup request whose email is already registered
but whose username is missing is answered with "All fields are required.",
not with the claim's "Email already registered.". -/
theorem signup_duplicate_email_cex :
    (∃ u ∈ sampleDb.rows, u.email = "bob@x") ∧
    (signup ⟨none, some "bob@x", some "pw2", some "Nancy N"⟩ "salt2" sampleDb).1.message
      = some "All fields are required." ∧
    (signup ⟨none, some "bob@x", some "pw2", some "Nancy N"⟩ "salt2" sampleDb).1.message
      ≠ some "Email already registered." := by decide

/-- C3 (amended): for every well-formed signup request (all four body fields
present and non-empty) whose email already exists in the users table, the
response is HTTP 400 "Email already registered.", the users table is
unchanged, and no token is issued. -/
theorem signup_duplicate_email_rejected (req : SignupReq) (salt : String)
    (db : Db) (u : UserRow)
    (h1 : falsy req.username = false) (h2 : falsy req.email = false)
    (h3 : falsy req.password = false) (h4 : falsy req.fullName = false)
    (he : findByEmail db (req.email.getD "") = some u) :
    (signup req salt db).1 =
      { status := 400, message := some "Email already registered.",
        token := none, user := none } ∧
    (signup req salt db).2 = db := by
  constructor <;> simp [signup, h1, h2, h3, h4, he]

/-- Witness for C3's amended theorem on a concrete duplicate signup. -/
theorem signup_duplicate_email_rejected_witness :
    (signup ⟨some "nancy", some "bob@x", some "pw2", some "Nancy N"⟩ "salt2" sampleDb).1 =
      { status := 400, message := some "Email already registered.",
        token := none, user := none } ∧
    (signup ⟨some "nancy", some "bob@x", some "pw2", some "Nancy N"⟩ "salt2" sampleDb).2
      = sampleDb :=
  signup_duplicate_email_rejected ⟨some "nancy", some "bob@x", some "pw2", some "Nancy N"⟩
    "salt2" sampleDb sampleRow rfl rfl rfl rfl (by decide)

/-! ## C4: login token iff password match -/

/-- C4 counterexample: for a registered email with the empty-string password
(a password that does not match the stored bcrypt hash) the login response
message is "Email and password are required.", not the claim's
"Invalid email or password.". -/
theorem login_wrong_password_cex :
    bcryptCompare "" sampleRow.passwordHash = false ∧
    (login ⟨some "bob@x", some ""⟩ sampleDb).status = 400 ∧
    (login ⟨some "bob@x", some ""⟩ sampleDb).message
      = some "Email and password are required." ∧
    (login ⟨some "bob@x", some ""⟩ sampleDb).message
      ≠ some "Invalid email or password." := by decide

/-- C4 (amended): over any users table reachable through this backend
(`WfDb`: non-empty emails, hashes of non-empty passwords), a login token is
issued iff the request's email matches a stored user and the request's
password matches that user's stored bcrypt hash; and for a present,
non-empty password that does not match, the response is HTTP 400
"Invalid email or password." with no token. -/
theorem login_token_iff_match (req : LoginReq) (db : Db) (hdb : WfDb db) :
    ((login req db).token.isSome = true ↔
      ∃ e p u, req.email = some e ∧ req.password = some p ∧
        findByEmail db e = some u ∧ bcryptCompare p u.passwordHash = true) ∧
    (∀ e p u, req.email = some e → req.password = some p → p ≠ "" →
      findByEmail db e = some u → bcryptCompare p u.passwordHash = false →
      (login req db).status = 400 ∧
      (login req db).message = some "Invalid email or password." ∧
      (login req db).token = none) := by
  obtain ⟨oe, op⟩ := req
  cases oe with
  | none =>
    constructor
    · simp [login, falsy]
    · intro e p u he
      cases he
  | some e =>
    cases op with
    | none =>
      constructor
      · simp [login, falsy]
      · intro e1 p u he hp
        cases hp
    | some p =>
      by_cases hp : p = ""
      · subst hp
        constructor
        · simp only [login, falsy, Option.getD_some]
          constructor
          · intro hx
            simp at hx
          · rintro ⟨e1, p1, u, he1, hp1, hf, hc⟩
            cases hp1
            obtain ⟨hm, -⟩ := findByEmail_some db e1 u hf
            have : bcryptCompare "" u.passwordHash = false := by
              simp [bcryptCompare]
              exact Ne.symm (hdb u hm).2
            rw [this] at hc
            cases hc
        · intro e1 p1 u he1 hp1 hne
          cases hp1
          exact absurd rfl hne
      · by_cases he0 : e = ""
        · subst he0
          constructor
          · simp only [login, falsy, Option.getD_some]
            constructor
            · intro hx
              simp at hx
            · rintro ⟨e1, p1, u, he1, hp1, hf, hc⟩
              cases he1
              rw [findByEmail_empty db hdb] at hf
              cases hf
          · intro e1 p1 u he1 hp1 hne hf
            cases he1
            rw [findByEmail_empty db hdb] at hf
            cases hf
        · have hfe : falsy (some e) = false := by simp [falsy, he0]
          have hfp : falsy (some p) = false := by simp [falsy, hp]
          cases hf : findByEmail db e with
          | none =>
            constructor
            · simp only [login, hfe, hfp, Bool.false_or, Bool.or_self,
                Bool.false_eq_true, if_false, Option.getD_some, hf]
              constructor
              · intro hx
                simp at hx
              · rintro ⟨e1, p1, u, he1, hp1, hf1, hc⟩
                cases he1
                rw [hf] at hf1
                cases hf1
            · intro e1 p1 u he1 hp1 hne hf1
              cases he1
              rw [hf] at hf1
              cases hf1
          | some u =>
            cases hc : bcryptCompare p u.passwordHash with
            | true =>
              constructor
              · simp only [login, hfe, hfp, Bool.false_or, Bool.or_self,
                  Bool.false_eq_true, if_false, Option.getD_some, hf, hc, if_true]
                simp only [Option.isSome_some, true_iff]
                exact ⟨e, p, u, rfl, rfl, hf, hc⟩
              · intro e1 p1 u1 he1 hp1 hne hf1 hc1
                cases he1
                cases hp1
                rw [hf] at hf1
                cases hf1
                rw [hc] at hc1
                cases hc1
            | false =>
              constructor
              · simp only [login, hfe, hfp, Bool.false_or, Bool.or_self,
                  Bool.false_eq_true, if_false, Option.getD_some, hf, hc]
                constructor
                · intro hx
                  simp at hx
                · rintro ⟨e1, p1, u1, he1, hp1, hf1, hc1⟩
                  cases he1
                  cases hp1
                  rw [hf] at hf1
                  cases hf1
                  rw [hc] at hc1
                  cases hc1
              · intro e1 p1 u1 he1 hp1 hne hf1 hc1
                cases he1
                cases hp1
                refine ⟨?_, ?_, ?_⟩ <;>
                  simp [login, hfe, hfp, hf, hc]

/-- Witness for C4's amended theorem: wrong password on a registered
email. -/
theorem login_token_iff_match_witness :
    (login ⟨some "bob@x", some "bad"⟩ sampleDb).status = 400 ∧
    (login ⟨some "bob@x", some "bad"⟩ sampleDb).message
      = some "Invalid email or password." ∧
    (login ⟨some "bob@x", some "bad"⟩ sampleDb).token = none :=
  (login_token_iff_match ⟨some "bob@x", some "bad"⟩ sampleDb (by decide)).2
    "bob@x" "bad" sampleRow rfl rfl (by decide) (by decide) (by decide)

/-! ## C5: /me authentication outcomes -/

/-- C5: `GET /api/auth/me` answers 401 "Access denied. No token provided."
when the Authorization header carries no bearer token, 403 "Invalid token."
when JWT verification of the extracted token fails, and a user row is
fetched and returned only when verification succeeded. -/
theorem me_auth_responses (verify : String → Option JwtPayload)
    (h : Option String) (db : Db) :
    (extractToken h = none →
      meHandler verify h db =
        { status := 401, message := some "Access denied. No token provided.",
          token := none, user := none }) ∧
    (∀ tok, extractToken h = some tok → verify tok = none →
      meHandler verify h db =
        { status := 403, message := some "Invalid token.",
          token := none, user := none }) ∧
    (∀ r, (meHandler verify h db).user = some r →
      ∃ tok p u, extractToken h = some tok ∧ verify tok = some p ∧
        db.rows.find? (fun x => x.id == p.id) = some u ∧
        meHandler verify h db =
          { status := 200, message := none, token := none,
            user := some ⟨u.id, u.username, u.email, u.fullName⟩ }) := by
  refine ⟨?_, ?_, ?_⟩
  · intro hx
    simp [meHandler, hx]
  · intro tok hx hv
    simp [meHandler, hx, hv]
  · intro r hr
    cases hx : extractToken h with
    | none => simp [meHandler, hx] at hr
    | some tok =>
      cases hv : verify tok with
      | none => simp [meHandler, hx, hv] at hr
      | some p =>
        cases hf : db.rows.find? (fun x => x.id == p.id) with
        | none => simp [meHandler, hx, hv, hf] at hr
        | some u => exact ⟨tok, p, u, rfl, hv, hf, by simp [meHandler, hx, hv, hf]⟩

/-! ## C6: the shape of every issued token -/

/-- C6: every token issued by signup or login is signed with the JWT
library's HMAC algorithm (HS256) and the configured secret, carries exactly
the payload {id, email} of the authenticated user (the created row for
signup, the matched row for login), and expires in 24 hours. -/
theorem issued_token_shape (sreq : SignupReq) (salt : String) (lreq : LoginReq)
    (db : Db) :
    (∀ t, (signup sreq salt db).1.token = some t →
      ∃ v, (signup sreq salt db).1.user = some v ∧
        t = jwtSign ⟨v.id, v.email⟩ jwtSecret "24h" ∧
        t.payload = ⟨v.id, v.email⟩ ∧ t.alg = "HS256" ∧
        t.signedWith = jwtSecret ∧ t.expiresIn = "24h") ∧
    (∀ t, (login lreq db).token = some t →
      ∃ u, findByEmail db (lreq.email.getD "") = some u ∧
        t = jwtSign ⟨u.id, u.email⟩ jwtSecret "24h" ∧
        t.payload = ⟨u.id, u.email⟩ ∧ t.alg = "HS256" ∧
        t.signedWith = jwtSecret ∧ t.expiresIn = "24h") := by
  constructor
  · intro t ht
    by_cases hg : (falsy sreq.username || falsy sreq.email || falsy sreq.password ||
        falsy sreq.fullName) = true
    · simp [signup, hg] at ht
    · have hgf : (falsy sreq.username || falsy sreq.email || falsy sreq.password ||
          falsy sreq.fullName) = false := by simpa using hg
      cases hf : findByEmail db (sreq.email.getD "") with
      | some u => simp [signup, hgf, hf] at ht
      | none =>
        simp only [signup, hgf, Bool.false_eq_true, if_false, hf] at ht ⊢
        cases ht
        exact ⟨⟨db.nextId, sreq.username.getD "", sreq.email.getD "",
          sreq.fullName.getD ""⟩, rfl, rfl, rfl, rfl, rfl, rfl⟩
  · intro t ht
    by_cases hg : (falsy lreq.email || falsy lreq.password) = true
    · simp [login, hg] at ht
    · have hgf : (falsy lreq.email || falsy lreq.password) = false := by simpa using hg
      cases hf : findByEmail db (lreq.email.getD "") with
      | none => simp [login, hgf, hf] at ht
      | some u =>
        cases hc : bcryptCompare (lreq.password.getD "") u.passwordHash with
        | false => simp [login, hgf, hf, hc] at ht
        | true =>
          simp only [login, hgf, Bool.false_eq_true, if_false, hf, hc, if_true] at ht
          cases ht
          exact ⟨u, rfl, rfl, rfl, rfl, rfl, rfl⟩

/-! ## C10: login does not reveal account existence -/

/-- C10 counterexample: the pair (unregistered email "nancy@x" with password
"pw", registered email "bob@x" with the empty password — a password that
does not match the stored bcrypt hash) is a pair the claim quantifies over,
yet the responses differ: "Invalid email or password." for the unregistered
email versus "Email and password are required." for the empty password, so
the claim as stated is false. -/
theorem login_indistinguishable_cex :
    findByEmail sampleDb "nancy@x" = none ∧
    findByEmail sampleDb "bob@x" = some sampleRow ∧
    bcryptCompare "" sampleRow.passwordHash = false ∧
    (login ⟨some "nancy@x", some "pw"⟩ sampleDb).message
      = some "Invalid email or password." ∧
    (login ⟨some "bob@x", some ""⟩ sampleDb).message
      = some "Email and password are required." ∧
    login ⟨some "nancy@x", some "pw"⟩ sampleDb
      ≠ login ⟨some "bob@x", some ""⟩ sampleDb := by decide

/-- C10 (amended): a login with an unregistered non-empty email and
non-empty password and a login with a registered email but wrong
*non-empty* password produce identical responses — both HTTP 400
"Invalid email or password." with no token and no user — so for
well-formed credential pairs the login response does not reveal whether an
email has an account (an absent or empty field is answered by the earlier
validation branch with "Email and password are required." instead). -/
theorem login_indistinguishable (db : Db) (e1 p1 e2 p2 : String) (u : UserRow)
    (h1 : e1 ≠ "") (h2 : p1 ≠ "") (h3 : findByEmail db e1 = none)
    (h4 : e2 ≠ "") (h5 : p2 ≠ "") (h6 : findByEmail db e2 = some u)
    (h7 : bcryptCompare p2 u.passwordHash = false) :
    login ⟨some e1, some p1⟩ db = login ⟨some e2, some p2⟩ db ∧
    login ⟨some e1, some p1⟩ db =
      { status := 400, message := some "Invalid email or password.",
        token := none, user := none } := by
  have r1 : login ⟨some e1, some p1⟩ db =
      { status := 400, message := some "Invalid email or password.",
        token := none, user := none } := by
    simp [login, falsy, h1, h2, h3]
  have r2 : login ⟨some e2, some p2⟩ db =
      { status := 400, message := some "Invalid email or password.",
        token := none, user := none } := by
    simp [login, falsy, h4, h5, h6, h7]
  exact ⟨r1.trans r2.symm, r1⟩

/-- Witness for C10 on a concrete table: unknown email vs. wrong
password. -/
theorem login_indistinguishable_witness :
    login ⟨some "nancy@x", some "whatever"⟩ sampleDb
      = login ⟨some "bob@x", some "bad"⟩ sampleDb ∧
    login ⟨some "nancy@x", some "whatever"⟩ sampleDb =
      { status := 400, message := some "Invalid email or password.",
        token := none, user := none } :=
  login_indistinguishable sampleDb "nancy@x" "whatever" "bob@x" "bad" sampleRow
    (by decide) (by decide) (by decide) (by decide) (by decide) (by decide) (by decide)

end InterviewApp
